import Mathlib

/-!
Shallow embedding of the Power-Monitor-Bot core (DKasatik/Power-Monitor-Bot),
with theorems checking the natural-language specification against the code.

Modelled modules:
  * `src/tuya_monitor.py`  — `TuyaMonitor` state tracking (`check_status`,
    `get_status_duration`, `format_duration`, `get_status_info`);
  * `src/yasno_parser.py`  — `YasnoParser` schedule cache (`fetch_schedule`,
    `minutes_to_time`, `get_today_schedule`, `is_outage_planned`);
  * `src/database.py`      — `DatabaseManager.save_power_event`;
  * `src/telegram_bot.py`  — `on_power_change`, `is_night_time`,
    `send_weekly_stats`, `send_monthly_stats`.

Conventions: wall-clock instants are natural numbers of seconds on an abstract
timeline; Python `None` becomes `Option.none`; a fallible external call (device
poll, HTTP transport, SQL insert) becomes an explicit `Option`/`Except`
argument carrying that call's outcome, so every tracked control path of the
Python code is a total Lean function of its inputs.
-/

namespace PowerMonitor

/-! ### State tracker (`src/tuya_monitor.py`) -/

/-- The mutable fields of `TuyaMonitor`: `self.last_status` (``None`` until the
first successful poll) and `self.last_change_time`. -/
structure TrackerState where
  last_status : Option Bool
  last_change_time : Nat
  deriving Repr, DecidableEq

/-- `TuyaMonitor.__init__`: `last_status = None`, `last_change_time =
datetime.now()` (the construction instant `t0`). -/
def initTracker (t0 : Nat) : TrackerState := ⟨none, t0⟩

/-- `TuyaMonitor.get_status_duration`: `now - last_change_time` in whole
seconds. -/
def get_status_duration (s : TrackerState) (now : Nat) : Nat :=
  now - s.last_change_time

/-- `TuyaMonitor.format_duration` (textually identical to
`DatabaseManager.format_duration`): `divmod` by 3600 and 60, render
`"H год. M хв."` when hours are positive, else `"M хв."`. -/
def format_duration (seconds : Nat) : String :=
  let hours := seconds / 3600
  let remainder := seconds % 3600
  let minutes := remainder / 60
  if hours > 0 then
    toString hours ++ " год. " ++ toString minutes ++ " хв."
  else
    toString minutes ++ " хв."

/-- One call of `TuyaMonitor.check_status` at instant `now`.  `reading` is the
result of `get_current_status()` (`none` = poll failure).  Returns the updated
tracker state and the event handed to the status-change callback, if any
(`(current_status, duration_seconds)`); the Python return value `True` is
`isSome` of that event. -/
def check_status (s : TrackerState) (reading : Option Bool) (now : Nat) :
    TrackerState × Option (Bool × Nat) :=
  match reading with
  | none => (s, none)
  | some v =>
    match s.last_status with
    | none => (⟨some v, now⟩, none)
    | some w =>
      if v ≠ w then
        (⟨some v, now⟩, some (v, now - s.last_change_time))
      else
        (s, none)

/-- The polling loop of `TuyaMonitor.start_monitoring`: fold `check_status`
over a list of timestamped poll results, collecting emitted events in order. -/
def run_monitor (s : TrackerState) :
    List (Option Bool × Nat) → TrackerState × List (Bool × Nat)
  | [] => (s, [])
  | (r, t) :: rest =>
    match check_status s r t with
    | (s₁, ev) =>
      match run_monitor s₁ rest with
      | (s₂, evs) => (s₂, ev.toList ++ evs)

/-- Number of adjacent differing pairs in a list of boolean readings. -/
def countChanges : List Bool → Nat
  | [] => 0
  | [_] => 0
  | a :: b :: rest => (if a ≠ b then 1 else 0) + countChanges (b :: rest)

lemma countChanges_cons_cons (a b : Bool) (l : List Bool) :
    countChanges (a :: b :: l) = (if a ≠ b then 1 else 0) + countChanges (b :: l) := rfl

lemma run_monitor_baseline (w : Bool) (t : Nat) :
    ∀ polls : List (Option Bool × Nat),
      (run_monitor ⟨some w, t⟩ polls).2.length =
        countChanges (w :: polls.filterMap Prod.fst) := by
  intro polls
  induction polls generalizing w t with
  | nil => simp [run_monitor, countChanges]
  | cons p rest ih =>
    obtain ⟨r, t'⟩ := p
    match r with
    | none =>
      simpa [run_monitor, check_status] using ih w t
    | some v =>
      by_cases hvw : v = w
      · subst hvw
        simpa [run_monitor, check_status, countChanges_cons_cons] using ih v t
      · simp [run_monitor, check_status, hvw, countChanges_cons_cons, Ne.symm hvw]
        have := ih v t'
        omega

/-- **C1.**  The tracker emits exactly one transition event per pair of
consecutive successful polls whose values differ: no event for the first
successful poll, for repeats of the last known value, or for failed polls.
Hence, starting from the freshly constructed tracker, the number of emitted
events over any poll sequence equals the number of adjacent value changes in
the subsequence of successful readings — changes relative to anything observed
before the first successful poll are not counted. -/
theorem check_status_transition_count (t0 : Nat) (polls : List (Option Bool × Nat)) :
    (run_monitor (initTracker t0) polls).2.length =
      countChanges (polls.filterMap Prod.fst) := by
  induction polls generalizing t0 with
  | nil => simp [run_monitor, countChanges]
  | cons p rest ih =>
    obtain ⟨r, t'⟩ := p
    match r with
    | none =>
      simpa [run_monitor, check_status, initTracker] using ih t0
    | some v =>
      simpa [run_monitor, check_status, initTracker] using
        run_monitor_baseline v t' rest

/-- Result of `TuyaMonitor.get_status_info` (the `timestamp` field, the
formatted current wall-clock time, carries no tracker state and is omitted). -/
structure StatusInfo where
  has_power : Option Bool
  duration_seconds : Nat
  duration_text : String
  deriving Repr, DecidableEq

/-- `TuyaMonitor.get_status_info`: returns `self.last_status` as `has_power`
(without polling) together with the duration since `last_change_time`. -/
def get_status_info (s : TrackerState) (now : Nat) : StatusInfo :=
  let duration_seconds := get_status_duration s now
  ⟨s.last_status, duration_seconds, format_duration duration_seconds⟩

/-- **C10.**  Before the first successful poll — after any number of failed
polls from construction — `get_status_info` reports `has_power = none` (not a
boolean), and its duration fields are computed from the construction instant
`t0`.  (`PowerMonitorBot.cmd_status` renders this `none` as a distinct
"could not get status" message.) -/
theorem get_status_info_before_first_poll (t0 now : Nat) (failTimes : List Nat) :
    (run_monitor (initTracker t0)
        (failTimes.map fun t => ((none : Option Bool), t))).1 = initTracker t0 ∧
    get_status_info
        (run_monitor (initTracker t0)
          (failTimes.map fun t => ((none : Option Bool), t))).1 now =
      ⟨none, now - t0, format_duration (now - t0)⟩ := by
  have hrun : ∀ s : TrackerState,
      (run_monitor s (failTimes.map fun t => ((none : Option Bool), t))).1 = s := by
    intro s
    induction failTimes with
    | nil => simp [run_monitor]
    | cons t rest ih => simpa [run_monitor, check_status] using ih
  refine ⟨hrun _, ?_⟩
  rw [hrun]
  rfl

/-! ### Quiet-hours gate (`src/telegram_bot.py`) -/

/-- `NIGHT_START = time(23, 0)` as seconds of day (Python `datetime.time`
compares lexicographically on (hour, minute, second), i.e. as seconds). -/
def NIGHT_START : Nat := 23 * 3600

/-- `NIGHT_END = time(6, 0)` as seconds of day. -/
def NIGHT_END : Nat := 6 * 3600

/-- `PowerMonitorBot.is_night_time`, generalised over the configured window as
the source reads its two module-level constants: when `start > stop` the window
wraps midnight (`t ≥ start or t < stop`), otherwise `start ≤ t < stop`.
`current_time` is the local time of day in seconds. -/
def is_night_time (nightStart nightEnd current_time : Nat) : Bool :=
  if nightStart > nightEnd then
    decide (current_time ≥ nightStart) || decide (current_time < nightEnd)
  else
    decide (nightStart ≤ current_time) && decide (current_time < nightEnd)

/-- **C8.**  With the configured window [23:00, 06:00) the gate is inside
exactly for times ≥ 23:00 or < 06:00 (so 02:30, 23:00 and 05:59 are inside
while 12:00 and 06:00 are outside), and for a non-wrapping window
[start, end) it is inside exactly when start ≤ t < end. -/
theorem is_night_time_spec (t : Nat) :
    (is_night_time NIGHT_START NIGHT_END t = true ↔
      NIGHT_START ≤ t ∨ t < NIGHT_END) ∧
    is_night_time NIGHT_START NIGHT_END (2 * 3600 + 30 * 60) = true ∧
    is_night_time NIGHT_START NIGHT_END (12 * 3600) = false ∧
    is_night_time NIGHT_START NIGHT_END (23 * 3600) = true ∧
    is_night_time NIGHT_START NIGHT_END (5 * 3600 + 59 * 60) = true ∧
    is_night_time NIGHT_START NIGHT_END (6 * 3600) = false ∧
    (∀ s e : Nat, s ≤ e →
      (is_night_time s e t = true ↔ s ≤ t ∧ t < e)) := by
  refine ⟨?_, by decide, by decide, by decide, by decide, by decide, ?_⟩
  · unfold is_night_time NIGHT_START NIGHT_END
    simp
  · intro s e hse
    unfold is_night_time
    simp [Nat.not_lt.mpr hse]

/-- Witness for the hypothesised conjunct of `is_night_time_spec`: the
non-wrapping window [06:00, 23:00) contains 12:00. -/
theorem is_night_time_spec_witness :
    is_night_time (6 * 3600) (23 * 3600) (12 * 3600) = true := by
  have h := (is_night_time_spec (12 * 3600)).2.2.2.2.2.2 (6 * 3600) (23 * 3600)
    (by decide)
  exact h.mpr (by decide)

/-! ### Schedule cache (`src/yasno_parser.py`) -/

/-- One slot of a YASNO day schedule: the JSON object `{start, end, type}` in
minutes of day (`stop` stands for the JSON field `end`, a Lean keyword). -/
structure Slot where
  start : Nat
  stop : Nat
  type : String
  deriving Repr, DecidableEq

/-- A YASNO day sub-document: `{date, slots}`. -/
structure DaySchedule where
  date : String
  slots : List Slot
  deriving Repr, DecidableEq

/-- `self.data.get(self.group)` for the configured group: the `today` and
`tomorrow` sub-documents, `none` standing for an absent (or falsy) entry. -/
structure GroupData where
  today : Option DaySchedule
  tomorrow : Option DaySchedule
  deriving Repr, DecidableEq

/-- The parser's cached document for the configured group:
`none` models `self.data` being `None`/falsy or the group key missing/falsy,
the cases `get_today_schedule` collapses to `None`. -/
abbrev YasnoCache := Option GroupData

/-- `YasnoParser.fetch_schedule`: on transport success store the fetched
document and return `True`; on a `RequestException` print, leave `self.data`
untouched and return `False`.  `transport` carries the outcome of
`requests.get(...).json()`; the pair is (return value, new `self.data`). -/
def fetch_schedule (data : YasnoCache) (transport : Except Unit GroupData) :
    Bool × YasnoCache :=
  match transport with
  | .ok doc => (true, some doc)
  | .error _ => (false, data)

/-- `YasnoParser.minutes_to_time`: minutes of day to `"HH:MM"` with Python's
`{:02d}` padding. -/
def minutes_to_time (minutes : Nat) : String :=
  let hours := minutes / 60
  let mins := minutes % 60
  (if hours < 10 then "0" ++ toString hours else toString hours) ++ ":" ++
    (if mins < 10 then "0" ++ toString mins else toString mins)

/-- `YasnoParser.get_today_schedule`: `None` when no data is cached or the
group entry is missing, else the `today` sub-document. -/
def get_today_schedule : YasnoCache → Option DaySchedule
  | none => none
  | some group_data => group_data.today

/-- `YasnoParser.get_tomorrow_schedule`. -/
def get_tomorrow_schedule : YasnoCache → Option DaySchedule
  | none => none
  | some group_data => group_data.tomorrow

/-- A local time of day as the `datetime` fields `is_outage_planned` reads. -/
structure TimeOfDay where
  hour : Nat
  minute : Nat
  deriving Repr, DecidableEq

/-- The `for slot in slots` loop of `YasnoParser.is_outage_planned`: first slot
with `type == "Definite"` and `start <= current_minutes < end` answers
`(True, minutes_to_time(end))`; falling off the loop answers `(False, None)`. -/
def scan_slots (current_minutes : Nat) : List Slot → Bool × Option String
  | [] => (false, none)
  | slot :: rest =>
    if slot.type = "Definite" ∧ slot.start ≤ current_minutes ∧ current_minutes < slot.stop
    then (true, some (minutes_to_time slot.stop))
    else scan_slots current_minutes rest

/-- `YasnoParser.is_outage_planned`: `(False, None)` without a today schedule,
else scan its slots at `check_time.hour * 60 + check_time.minute`. -/
def is_outage_planned (data : YasnoCache) (check_time : TimeOfDay) :
    Bool × Option String :=
  match get_today_schedule data with
  | none => (false, none)
  | some schedule =>
    scan_slots (check_time.hour * 60 + check_time.minute) schedule.slots

/-- The slot predicate of the scan as a boolean, for `List.find?`. -/
def slot_matches (current_minutes : Nat) (slot : Slot) : Bool :=
  slot.type == "Definite" && decide (slot.start ≤ current_minutes) &&
    decide (current_minutes < slot.stop)

lemma slot_matches_iff (m : Nat) (slot : Slot) :
    slot_matches m slot = true ↔
      slot.type = "Definite" ∧ slot.start ≤ m ∧ m < slot.stop := by
  simp [slot_matches, and_assoc]

lemma scan_slots_eq_find? (m : Nat) (slots : List Slot) :
    scan_slots m slots =
      match slots.find? (slot_matches m) with
      | none => (false, none)
      | some slot => (true, some (minutes_to_time slot.stop)) := by
  induction slots with
  | nil => rfl
  | cons slot rest ih =>
    by_cases h : slot.type = "Definite" ∧ slot.start ≤ m ∧ m < slot.stop
    · have hb : slot_matches m slot = true := (slot_matches_iff m slot).mpr h
      simp [scan_slots, h, List.find?, hb]
    · have hb : slot_matches m slot = false := by
        rw [Bool.eq_false_iff]
        exact fun hc => h ((slot_matches_iff m slot).mp hc)
      simp [scan_slots, h, List.find?, hb, ih]

/-- **C2.**  For every instant and cache state, `is_outage_planned` returns
`(true, HH:MM of end)` exactly when the cached today document has a `Definite`
slot with `start ≤ minuteOfDay < end` — the first such slot in document order
supplying the end time — and `(false, none)` when no such slot exists or no
document is cached. -/
theorem is_outage_planned_spec (data : YasnoCache) (hour minute : Nat) :
    (is_outage_planned data ⟨hour, minute⟩ =
      match get_today_schedule data with
      | none => (false, none)
      | some schedule =>
        match schedule.slots.find? (slot_matches (hour * 60 + minute)) with
        | none => (false, none)
        | some slot => (true, some (minutes_to_time slot.stop))) ∧
    ((is_outage_planned data ⟨hour, minute⟩).1 = true ↔
      ∃ schedule, get_today_schedule data = some schedule ∧
        ∃ slot ∈ schedule.slots, slot.type = "Definite" ∧
          slot.start ≤ hour * 60 + minute ∧ hour * 60 + minute < slot.stop) := by
  have heq : is_outage_planned data ⟨hour, minute⟩ =
      match get_today_schedule data with
      | none => (false, none)
      | some schedule =>
        match schedule.slots.find? (slot_matches (hour * 60 + minute)) with
        | none => (false, none)
        | some slot => (true, some (minutes_to_time slot.stop)) := by
    unfold is_outage_planned
    cases get_today_schedule data with
    | none => rfl
    | some schedule => exact scan_slots_eq_find? _ _
  refine ⟨heq, ?_⟩
  rw [heq]
  cases hd : get_today_schedule data with
  | none => simp
  | some schedule =>
    dsimp only
    cases hf : schedule.slots.find? (slot_matches (hour * 60 + minute)) with
    | none =>
      dsimp only
      refine iff_of_false (by simp) ?_
      rintro ⟨schedule', hs, slot, hmem, hdef, hlo, hhi⟩
      cases hs
      have := List.find?_eq_none.mp hf slot hmem
      exact this ((slot_matches_iff _ _).mpr ⟨hdef, hlo, hhi⟩)
    | some slot =>
      dsimp only
      refine iff_of_true rfl ?_
      have hp := (slot_matches_iff _ _).mp (List.find?_some hf)
      exact ⟨schedule, rfl, slot, List.mem_of_find?_eq_some hf, hp⟩

/-- **C5.**  A schedule refresh that fails at the transport returns `False` and
leaves the cached document unchanged, whatever the cache state — so subsequent
classification and digest queries still see the last successfully fetched
document. -/
theorem fetch_schedule_failure_keeps_cache (data : YasnoCache) (e : Unit) :
    fetch_schedule data (Except.error e) = (false, data) ∧
    (∀ t : TimeOfDay,
      is_outage_planned (fetch_schedule data (Except.error e)).2 t =
        is_outage_planned data t) ∧
    get_today_schedule (fetch_schedule data (Except.error e)).2 =
      get_today_schedule data ∧
    get_tomorrow_schedule (fetch_schedule data (Except.error e)).2 =
      get_tomorrow_schedule data :=
  ⟨rfl, fun _ => rfl, rfl, rfl⟩

/-! ### Event store (`src/database.py`) -/

/-- The row `DatabaseManager.save_power_event` inserts into `power_events`
(the `event_time` column is `NOW()`, supplied by the substrate). -/
structure PowerEventRow where
  has_power : Bool
  duration_seconds : Nat
  is_planned : Bool
  expected_end_time : Option String
  yasno_schedule : Option String
  deriving Repr, DecidableEq

/-- `DatabaseManager.save_power_event`: the `INSERT ... RETURNING id` either
yields an id (returned unchanged) or raises, in which case the `except` branch
prints and returns `None`.  `substrate` carries the outcome of the insert. -/
def save_power_event (substrate : Except Unit Nat) (_row : PowerEventRow) :
    Option Nat :=
  match substrate with
  | .ok event_id => some event_id
  | .error _ => none

/-- **C4.**  `save_power_event` surfaces a store failure to the caller as an
explicit `None` and otherwise returns the substrate's event id: the failure is
never swallowed into a default/zero id, so no failing append is reported as a
valid id. -/
theorem save_power_event_surfaces_errors (row : PowerEventRow) (event_id : Nat)
    (e : Unit) :
    save_power_event (Except.ok event_id) row = some event_id ∧
    save_power_event (Except.error e) row = none ∧
    (∀ i : Nat, save_power_event (Except.error e) row ≠ some i) :=
  ⟨rfl, rfl, fun _ h => Option.noConfusion h⟩

/-! ### Transition callback (`src/telegram_bot.py`, `on_power_change`) -/

/-- The event row `PowerMonitorBot.on_power_change` builds and hands to
`save_power_event` after refreshing the schedule: `is_planned` is the
classification result masked to `False` for power-restored transitions
(`is_planned if not has_power else False`); `expected_end_time` is passed
through unmasked; `yasno_schedule` (the rendered full schedule text, an
external collaborator's string here) is attached only when power was lost.
`data` is the cache as of after the `fetch_schedule()` call. -/
def on_power_change_row (data : YasnoCache) (now : TimeOfDay) (has_power : Bool)
    (duration_seconds : Nat) (full_schedule_text : String) : PowerEventRow :=
  let planned := is_outage_planned data now
  { has_power := has_power
    duration_seconds := duration_seconds
    is_planned := if has_power then false else planned.1
    expected_end_time := planned.2
    yasno_schedule := if has_power then none else some full_schedule_text }

/-- **C6.**  A power-restored event (`has_power = true`) is never persisted
with `is_planned = true`: whatever the cached schedule says, the row built by
`on_power_change` records `is_planned = false` when power came back. -/
theorem restored_event_never_planned (data : YasnoCache) (now : TimeOfDay)
    (duration_seconds : Nat) (full_schedule_text : String) :
    (on_power_change_row data now true duration_seconds full_schedule_text).is_planned
      = false := rfl

/-- `TuyaMonitor.check_status` composed with the registered callback
`PowerMonitorBot.on_power_change` and the store call it makes: on a confirmed
transition the callback builds the event row and calls `save_power_event`
(outcome `substrate`), after which `check_status` unconditionally sets
`last_status`/`last_change_time` to the new observation.  Returns the new
tracker state and, when a transition fired, the persisted row together with
`save_power_event`'s result. -/
def check_status_persist (s : TrackerState) (reading : Option Bool) (now : Nat)
    (now_tod : TimeOfDay) (data : YasnoCache) (substrate : Except Unit Nat)
    (full_schedule_text : String) :
    TrackerState × Option (PowerEventRow × Option Nat) :=
  match reading with
  | none => (s, none)
  | some v =>
    match s.last_status with
    | none => (⟨some v, now⟩, none)
    | some w =>
      if v ≠ w then
        let row := on_power_change_row data now_tod v (now - s.last_change_time)
          full_schedule_text
        (⟨some v, now⟩, some (row, save_power_event substrate row))
      else
        (s, none)

/-- **C3, counterexample.**  A confirmed power-lost transition whose event
append fails at the store (`save_power_event` returns `none`) still advances
the in-memory state: from `last_status = some true, last_change_time = 0`, a
`false` reading at instant 5 with a failing store leaves the tracker at
`last_status = some false, last_change_time = 5`, so the in-memory and
persisted views diverge. -/
theorem failed_append_still_advances_state :
    ((check_status_persist ⟨some true, 0⟩ (some false) 5 ⟨12, 0⟩ none
        (Except.error ()) "").2.map Prod.snd) = some none ∧
    (check_status_persist ⟨some true, 0⟩ (some false) 5 ⟨12, 0⟩ none
        (Except.error ()) "").1 = ⟨some false, 5⟩ := by
  exact ⟨rfl, rfl⟩

/-- **C3, amended.**  On every confirmed transition the tracker advances
`last_status`/`last_change_time` to the new observation unconditionally — the
resulting in-memory state is the same whatever the store outcome, so a failed
append diverges the in-memory view from the persisted one rather than being
held back. -/
theorem check_status_advances_regardless_of_store (s : TrackerState)
    (v w : Bool) (now : Nat) (now_tod : TimeOfDay) (data : YasnoCache)
    (substrate : Except Unit Nat) (full_schedule_text : String)
    (hlast : s.last_status = some w) (hne : v ≠ w) :
    (check_status_persist s (some v) now now_tod data substrate
        full_schedule_text).1 = ⟨some v, now⟩ := by
  unfold check_status_persist
  rw [hlast]
  simp [hne]

/-- Witness for `check_status_advances_regardless_of_store` at a concrete
transition with a failing store. -/
theorem check_status_advances_regardless_of_store_witness :
    (check_status_persist ⟨some false, 3⟩ (some true) 7 ⟨0, 0⟩ none
        (Except.error ()) "").1 = ⟨some true, 7⟩ :=
  check_status_advances_regardless_of_store ⟨some false, 3⟩ true false 7 ⟨0, 0⟩
    none (Except.error ()) "" rfl (by decide)

/-! ### Weekly / monthly digests (`src/telegram_bot.py`) -/

/-- A `stat_date` value (a SQL `date`). -/
structure StatDate where
  year : Nat
  month : Nat
  day : Nat
  deriving Repr, DecidableEq

/-- One row of `power_statistics` as returned by
`DatabaseManager.get_daily_statistics` (ordered by `stat_date DESC`,
most recent first). -/
structure DailyStat where
  stat_date : StatDate
  total_outages : Nat
  planned_outages : Nat
  emergency_outages : Nat
  total_outage_duration_seconds : Nat
  longest_outage_seconds : Nat
  deriving Repr, DecidableEq

/-- Python `{:02d}`-style padding used by `strftime` numeric fields. -/
def pad2 (n : Nat) : String :=
  if n < 10 then "0" ++ toString n else toString n

/-- `strftime('%d.%m')`. -/
def fmt_dm (d : StatDate) : String := pad2 d.day ++ "." ++ pad2 d.month

/-- `strftime('%d.%m.%Y')`. -/
def fmt_dmy (d : StatDate) : String := fmt_dm d ++ "." ++ toString d.year

/-- `strftime('%B')` month names (C locale). -/
def month_name : Nat → String
  | 1 => "January" | 2 => "February" | 3 => "March" | 4 => "April"
  | 5 => "May" | 6 => "June" | 7 => "July" | 8 => "August"
  | 9 => "September" | 10 => "October" | 11 => "November" | 12 => "December"
  | _ => ""

/-- `strftime('%B %Y')`. -/
def fmt_by (d : StatDate) : String := month_name d.month ++ " " ++ toString d.year

/-- `worst_day = max(stats, key=lambda x: x['total_outage_duration_seconds'])`:
Python's `max` keeps the first element and replaces it only on a strictly
greater key, so on ties the earliest-scanned element wins. -/
def worst_day (first : DailyStat) (rest : List DailyStat) : DailyStat :=
  rest.foldl
    (fun acc x =>
      if x.total_outage_duration_seconds > acc.total_outage_duration_seconds
      then x else acc)
    first

/-- The `🔴 Найгірший день` lines: rendered only when the selected worst day
has a positive outage count. -/
def worst_day_line (w : DailyStat) : String :=
  if w.total_outages > 0 then
    "🔴 Найгірший день: " ++ fmt_dm w.stat_date ++ " (" ++
      toString w.total_outages ++ " відкл., " ++
      format_duration w.total_outage_duration_seconds ++ ")"
  else ""

/-- Body of the non-empty branch of `PowerMonitorBot.send_weekly_stats`
(everything after the fixed header line). -/
def weekly_body (first : DailyStat) (rest : List DailyStat) : String :=
  let stats := first :: rest
  let total_outages := (stats.map DailyStat.total_outages).sum
  let total_planned := (stats.map DailyStat.planned_outages).sum
  let total_emergency := (stats.map DailyStat.emergency_outages).sum
  let total_duration := (stats.map DailyStat.total_outage_duration_seconds).sum
  let avg_duration := if total_outages > 0 then total_duration / total_outages else 0
  "📅 " ++ fmt_dm (stats.getLast (List.cons_ne_nil first rest)).stat_date ++
    " - " ++ fmt_dmy first.stat_date ++ "\n\n" ++
  "⚡ Всього відключень: " ++ toString total_outages ++ "\n" ++
  "📋 Планових: " ++ toString total_planned ++ "\n" ++
  "⚠️ Аварійних: " ++ toString total_emergency ++ "\n\n" ++
  "⏱ Загальний час без світла: " ++ format_duration total_duration ++ "\n" ++
  "📊 Середня тривалість: " ++ format_duration avg_duration ++ "\n\n" ++
  worst_day_line (worst_day first rest)

/-- `PowerMonitorBot.send_weekly_stats`: the message text sent, as a function
of the rows `get_daily_statistics(7)` returned (most recent first).  An empty
row set takes the early-return "no data" branch. -/
def send_weekly_stats (week_stats : List DailyStat) : String :=
  match week_stats with
  | [] => "📊 Тижнева статистика\n\nДаних за минулий тиждень немає."
  | first :: rest => "📊 Статистика за тиждень\n" ++ weekly_body first rest

/-- Body of the non-empty branch of `PowerMonitorBot.send_monthly_stats`. -/
def monthly_body (first : DailyStat) (rest : List DailyStat) : String :=
  let stats := first :: rest
  let total_outages := (stats.map DailyStat.total_outages).sum
  let total_planned := (stats.map DailyStat.planned_outages).sum
  let total_emergency := (stats.map DailyStat.emergency_outages).sum
  let total_duration := (stats.map DailyStat.total_outage_duration_seconds).sum
  let avg_duration := if total_outages > 0 then total_duration / total_outages else 0
  let days_with_outages := stats.countP (fun s => s.total_outages > 0)
  "📅 " ++ fmt_by (stats.getLast (List.cons_ne_nil first rest)).stat_date ++
    "\n\n" ++
  "⚡ Всього відключень: " ++ toString total_outages ++ "\n" ++
  "📋 Планових: " ++ toString total_planned ++ "\n" ++
  "⚠️ Аварійних: " ++ toString total_emergency ++ "\n\n" ++
  "📆 Днів з відключеннями: " ++ toString days_with_outages ++ " з " ++
    toString stats.length ++ "\n" ++
  "⏱ Загальний час без світла: " ++ format_duration total_duration ++ "\n" ++
  "📊 Середня тривалість: " ++ format_duration avg_duration ++ "\n\n" ++
  worst_day_line (worst_day first rest)

/-- `PowerMonitorBot.send_monthly_stats`: the message text sent, as a function
of the rows `get_daily_statistics(30)` returned. -/
def send_monthly_stats (month_stats : List DailyStat) : String :=
  match month_stats with
  | [] => "📈 Місячна статистика\n\nДаних за минулий місяць немає."
  | first :: rest => "📈 Статистика за місяць\n" ++ monthly_body first rest

lemma string_append_ne (a b t : String) (i : Nat) (hi : i < a.data.length)
    (hne : a.data[i]? ≠ b.data[i]?) : a ++ t ≠ b := by
  intro h
  apply hne
  have hd := congrArg String.data h
  rw [String.data_append] at hd
  calc a.data[i]? = (a.data ++ t.data)[i]? := (List.getElem?_append_left hi).symm
    _ = b.data[i]? := by rw [hd]

/-- **C7.**  The weekly and monthly digests on an empty statistics sequence
produce exactly the dedicated "no data" message, and on any non-empty sequence
produce a normal digest that is never equal to that message (the two start
with different fixed headers), so an all-zero quiet period is never rendered
as the "no data" variant and vice versa. -/
theorem digests_empty_vs_no_data :
    send_weekly_stats [] =
      "📊 Тижнева статистика\n\nДаних за минулий тиждень немає." ∧
    (∀ (first : DailyStat) (rest : List DailyStat),
      send_weekly_stats (first :: rest) ≠
        "📊 Тижнева статистика\n\nДаних за минулий тиждень немає.") ∧
    send_monthly_stats [] =
      "📈 Місячна статистика\n\nДаних за минулий місяць немає." ∧
    (∀ (first : DailyStat) (rest : List DailyStat),
      send_monthly_stats (first :: rest) ≠
        "📈 Місячна статистика\n\nДаних за минулий місяць немає.") := by
  refine ⟨rfl, ?_, rfl, ?_⟩
  · intro first rest
    exact string_append_ne "📊 Статистика за тиждень\n" _ (weekly_body first rest)
      2 (by decide) (by decide)
  · intro first rest
    exact string_append_ne "📈 Статистика за місяць\n" _ (monthly_body first rest)
      2 (by decide) (by decide)

lemma worst_day_cons (first r : DailyStat) (rs : List DailyStat) :
    worst_day first (r :: rs) =
      worst_day
        (if r.total_outage_duration_seconds > first.total_outage_duration_seconds
         then r else first) rs := rfl

lemma le_worst_day (rest : List DailyStat) :
    ∀ first : DailyStat, ∀ x ∈ first :: rest,
      x.total_outage_duration_seconds ≤
        (worst_day first rest).total_outage_duration_seconds := by
  induction rest with
  | nil =>
    intro first x hx
    simp only [List.mem_singleton] at hx
    subst hx
    exact le_refl _
  | cons r rs ih =>
    intro first x hx
    rw [worst_day_cons]
    have hf : first.total_outage_duration_seconds ≤
        (if r.total_outage_duration_seconds > first.total_outage_duration_seconds
         then r else first).total_outage_duration_seconds := by
      split <;> omega
    have hr : r.total_outage_duration_seconds ≤
        (if r.total_outage_duration_seconds > first.total_outage_duration_seconds
         then r else first).total_outage_duration_seconds := by
      split <;> omega
    rcases List.mem_cons.mp hx with h1 | hx'
    · subst h1
      exact le_trans hf (ih _ _ (List.mem_cons_self _ _))
    rcases List.mem_cons.mp hx' with h2 | h3
    · subst h2
      exact le_trans hr (ih _ _ (List.mem_cons_self _ _))
    · exact ih _ x (List.mem_cons_of_mem _ h3)

lemma find?_worst_day (rest : List DailyStat) :
    ∀ first : DailyStat,
      (first :: rest).find?
        (fun x => x.total_outage_duration_seconds ==
          (worst_day first rest).total_outage_duration_seconds) =
        some (worst_day first rest) := by
  induction rest with
  | nil =>
    intro first
    simp [worst_day, List.find?]
  | cons r rs ih =>
    intro first
    by_cases hgt : first.total_outage_duration_seconds <
        r.total_outage_duration_seconds
    · have hw : worst_day first (r :: rs) = worst_day r rs := by
        rw [worst_day_cons, if_pos hgt]
      rw [hw]
      have hWr : r.total_outage_duration_seconds ≤
          (worst_day r rs).total_outage_duration_seconds :=
        le_worst_day rs r r (List.mem_cons_self _ _)
      have hp1 : (first.total_outage_duration_seconds ==
          (worst_day r rs).total_outage_duration_seconds) = false := by
        simp only [beq_eq_false_iff_ne]
        omega
      rw [List.find?_cons, hp1]
      exact ih r
    · have hw : worst_day first (r :: rs) = worst_day first rs := by
        rw [worst_day_cons, if_neg hgt]
      rw [hw]
      by_cases hp : first.total_outage_duration_seconds =
          (worst_day first rs).total_outage_duration_seconds
      · have hptrue : (first.total_outage_duration_seconds ==
            (worst_day first rs).total_outage_duration_seconds) = true :=
          beq_iff_eq.mpr hp
        have h1 := ih first
        rw [List.find?_cons, hptrue] at h1
        rw [List.find?_cons, hptrue]
        exact h1
      · have hple : first.total_outage_duration_seconds ≤
            (worst_day first rs).total_outage_duration_seconds :=
          le_worst_day rs first first (List.mem_cons_self _ _)
        have hpfalse : (first.total_outage_duration_seconds ==
            (worst_day first rs).total_outage_duration_seconds) = false := by
          simp only [beq_eq_false_iff_ne]
          exact hp
        have hrfalse : (r.total_outage_duration_seconds ==
            (worst_day first rs).total_outage_duration_seconds) = false := by
          simp only [beq_eq_false_iff_ne]
          omega
        rw [List.find?_cons, hpfalse, List.find?_cons, hrfalse]
        have h1 := ih first
        rw [List.find?_cons, hpfalse] at h1
        exact h1

/-- **C9, counterexample.**  With the returned (most-recent-first) rows
[Oct 2, Oct 1] tying at 100 s of outage, the digests' `worst_day` selection
(Python `max`, which keeps the first maximal element of the DESC-ordered rows)
picks the Oct 2 row — not the row with the earliest date (Oct 1), as the claim
states. -/
theorem worst_day_tie_counterexample :
    worst_day ⟨⟨2025, 10, 2⟩, 2, 1, 1, 100, 60⟩ [⟨⟨2025, 10, 1⟩, 2, 1, 1, 100, 60⟩]
        ≠ ⟨⟨2025, 10, 1⟩, 2, 1, 1, 100, 60⟩ ∧
    (worst_day ⟨⟨2025, 10, 2⟩, 2, 1, 1, 100, 60⟩
        [⟨⟨2025, 10, 1⟩, 2, 1, 1, 100, 60⟩]).stat_date = ⟨2025, 10, 2⟩ ∧
    (⟨⟨2025, 10, 1⟩, 2, 1, 1, 100, 60⟩ : DailyStat).total_outage_duration_seconds =
      (worst_day ⟨⟨2025, 10, 2⟩, 2, 1, 1, 100, 60⟩
        [⟨⟨2025, 10, 1⟩, 2, 1, 1, 100, 60⟩]).total_outage_duration_seconds := by
  refine ⟨by decide, rfl, rfl⟩

/-- **C9, amended.**  The digests' worst-day selection returns a row whose
total outage duration is maximal over the non-empty statistics sequence, and
on ties it is the first such row in the returned ordering — with the
most-recent-first ordering `get_daily_statistics` produces, the tied row with
the latest (not earliest) date. -/
theorem worst_day_first_maximal (first : DailyStat) (rest : List DailyStat) :
    (∀ x ∈ first :: rest, x.total_outage_duration_seconds ≤
        (worst_day first rest).total_outage_duration_seconds) ∧
    (first :: rest).find?
        (fun x => x.total_outage_duration_seconds ==
          (worst_day first rest).total_outage_duration_seconds) =
      some (worst_day first rest) :=
  ⟨le_worst_day rest first, find?_worst_day rest first⟩

/-- Witness for `worst_day_first_maximal` at a concrete two-row sequence. -/
theorem worst_day_first_maximal_witness :
    (⟨⟨2025, 10, 2⟩, 1, 1, 0, 50, 50⟩ : DailyStat).total_outage_duration_seconds ≤
      (worst_day ⟨⟨2025, 10, 2⟩, 1, 1, 0, 50, 50⟩
        [⟨⟨2025, 10, 1⟩, 2, 0, 2, 100, 80⟩]).total_outage_duration_seconds :=
  (worst_day_first_maximal ⟨⟨2025, 10, 2⟩, 1, 1, 0, 50, 50⟩
      [⟨⟨2025, 10, 1⟩, 2, 0, 2, 100, 80⟩]).1 _ (List.mem_cons_self _ _)

end PowerMonitor
